import Mathlib

/-!
Verification of the filter-scoping and query-parameter builder of the
clickstream intent dashboard.

The program under study is `build_params` in `src/filters.py`, together
with the near-duplicate revision of the same function in `src/app.py`.
Both translate a sidebar filter configuration (a Python dict mapping
filter names to `{'value': ..., 'scope': ...}` dicts) and a target
context identifier into a dict of query parameters, where an inactive
filter is mapped to Python `None`.

The embedding below models Python values with an inductive `PyVal`
(covering the value shapes the program handles: `None`, booleans,
integers, strings and lists), Python dicts with ordered association
lists (insertion order preserved, assignment overwrites in place), and
Python exceptions (`KeyError` in the `app.py` revision) with `Option`.
-/

/-- A Python value as handled by the filter configuration: `None`, a
boolean (the weekend tri-state), an integer or string (selected ids or
labels), or a list of values (a multiselect selection). -/
inductive PyVal where
  | none
  | bool (b : Bool)
  | int (n : Int)
  | str (s : String)
  | list (xs : List PyVal)

/-- Python truthiness for the value shapes above: `None`, `False`, `0`,
`""` and `[]` are falsy, everything else truthy. This is the test the
source performs with `if value or ...`. -/
def truthy : PyVal → Bool
  | PyVal.none => false
  | PyVal.bool b => b
  | PyVal.int n => n != 0
  | PyVal.str s => s != ""
  | PyVal.list xs => !xs.isEmpty

/-- The test the source performs with `value is not None`. -/
def PyVal.isNone : PyVal → Bool
  | PyVal.none => true
  | _ => false

/-- One entry of the filter configuration dict: the inner Python dict
`{'value': ..., 'scope': ...}`. Either key may be absent (`Option.none`
models an absent key; `some PyVal.none` models the key present and
bound to Python `None`, as the weekend filter's "All" choice is). -/
structure FilterEntry where
  value : Option PyVal
  scope : Option String

/-- Python dict assignment `d[k] = v` on an ordered association list:
overwrite in place when the key is present, append otherwise. -/
def dictInsert (d : List (String × α)) (k : String) (v : α) : List (String × α) :=
  if d.any (fun p => p.1 == k) then
    d.map (fun p => if p.1 == k then (k, v) else p)
  else
    d ++ [(k, v)]

namespace Filters

/-- The `param_map` dict of `src/filters.py` `build_params`, read with
`param_map.get(name)`: the 8 recognized filter names and their query
parameter names; unrecognized names map to nothing. -/
def param_map : String → Option String
  | "month" => some "p_months"
  | "visitor" => some "p_visitor_types"
  | "weekend" => some "p_weekend"
  | "browser" => some "p_browsers"
  | "os" => some "p_os"
  | "region" => some "p_regions"
  | "traffic" => some "p_traffics"
  | "page_type" => some "p_page_types"
  | _ => Option.none

/-- The body of the loop of `src/filters.py` `build_params` for one
filter, producing the parameter value assigned for it: reads
`config.get('value')` (Python `None` when the key is absent), decides
activity (`value` truthy, or the weekend filter with `value is not
None`, and then the scope — `config.get('scope', 'All')` — matched
against the target context), and yields the value when active, Python
`None` otherwise. -/
def entryParam (name : String) (config : FilterEntry) (target_graph : Option String) : Option PyVal :=
  let value : PyVal := config.value.getD PyVal.none
  let is_active : Bool :=
    if truthy value || (name == "weekend" && !value.isNone) then
      let scope := config.scope.getD "All"
      if scope == "All" then true
      else if scope == "KPIs" && target_graph == some "kpi" then true
      else if scope == "Graph" && target_graph == some name then true
      else false
    else false
  if is_active then some value else Option.none

/-- One iteration of the loop of `src/filters.py` `build_params`: an
unrecognized name is skipped (`continue`), a recognized one has its
parameter assigned into the params dict. -/
def build_params_step (target_graph : Option String)
    (params : List (String × Option PyVal)) (p : String × FilterEntry) :
    List (String × Option PyVal) :=
  match param_map p.1 with
  | Option.none => params
  | some param_name => dictInsert params param_name (entryParam p.1 p.2 target_graph)

/-- `build_params` of `src/filters.py`: folds the loop over the items of
the supplied filter configuration, starting from an empty params dict.
The configuration dict is an ordered association list; the Python
`Option` value `some PyVal.none` of a parameter is the Python `None`
marking an inactive filter. -/
def build_params (filter_config : List (String × FilterEntry))
    (target_graph : Option String := Option.none) : List (String × Option PyVal) :=
  filter_config.foldl (build_params_step target_graph) []

/-- The same loop with the configuration threaded through as state, so
that the claim that the call leaves the supplied configuration
unmodified is expressible: each iteration assigns only into the params
dict and passes the configuration on unchanged, exactly as the source
loop only ever reads `config`. -/
def build_params_st (filter_config : List (String × FilterEntry))
    (target_graph : Option String := Option.none) :
    List (String × Option PyVal) × List (String × FilterEntry) :=
  filter_config.foldl
    (fun st p => (build_params_step target_graph st.1 p, st.2))
    ([], filter_config)

end Filters

namespace App

/-- The `param_map` dict of the `src/app.py` revision of `build_params`
(line 126), read with `param_map[name]` — a missing key raises
`KeyError`. Its contents are identical to the `filters.py` dict. -/
def param_map : String → Option String
  | "month" => some "p_months"
  | "visitor" => some "p_visitor_types"
  | "weekend" => some "p_weekend"
  | "browser" => some "p_browsers"
  | "os" => some "p_os"
  | "region" => some "p_regions"
  | "traffic" => some "p_traffics"
  | "page_type" => some "p_page_types"
  | _ => Option.none

/-- One iteration of the loop of the `src/app.py` revision of
`build_params`. It differs from the `filters.py` revision in using
raising dict accesses: `param_map[name]`, `config['value']` and
`config['scope']` raise `KeyError` when the key is absent
(`config['scope']` is only reached when the activity gate on the value
passes). A raised `KeyError` is modelled as `Option.none`. -/
def build_params_step (target_graph : Option String)
    (params : List (String × Option PyVal)) (p : String × FilterEntry) :
    Option (List (String × Option PyVal)) := do
  let param_name ← param_map p.1
  let value ← p.2.value
  let is_active ←
    if truthy value || (p.1 == "weekend" && !value.isNone) then do
      let scope ← p.2.scope
      pure (if scope == "All" then true
            else if scope == "KPIs" && target_graph == some "kpi" then true
            else if scope == "Graph" && target_graph == some p.1 then true
            else false)
    else pure false
  pure (dictInsert params param_name (if is_active then some value else Option.none))

/-- `build_params` of `src/app.py` (line 124): folds the raising loop
over the items of the filter configuration (which the source reads from
the module-level `filter_config`; it is passed explicitly here),
starting from an empty params dict. -/
def build_params (filter_config : List (String × FilterEntry))
    (target_graph : Option String := Option.none) :
    Option (List (String × Option PyVal)) :=
  filter_config.foldlM (build_params_step target_graph) []

end App

example : Filters.build_params [] (some "browser") = [] := rfl

example : Filters.build_params
    [("weekend", ⟨some (PyVal.bool false), some "All"⟩)] (some "kpi")
    = [("p_weekend", some (PyVal.bool false))] := rfl

example : Filters.build_params
    [("region", ⟨some (PyVal.list [PyVal.str "APAC"]), some "Graph"⟩)] (some "region")
    = [("p_regions", some (PyVal.list [PyVal.str "APAC"]))] := rfl

example : Filters.build_params
    [("region", ⟨some (PyVal.list [PyVal.str "APAC"]), some "Graph"⟩)] (some "kpi")
    = [("p_regions", Option.none)] := rfl

example : App.build_params
    [("region", ⟨some (PyVal.list [PyVal.str "APAC"]), some "Graph"⟩)] (some "kpi")
    = some [("p_regions", Option.none)] := rfl

example : App.build_params
    [("bogus", ⟨some (PyVal.int 1), some "All"⟩)] (some "kpi") = Option.none := rfl

example : Filters.build_params
    [("bogus", ⟨some (PyVal.int 1), some "All"⟩)] (some "kpi") = [] := rfl

/-- The two revisions carry textually identical `param_map` dicts. -/
theorem param_map_eq : App.param_map = Filters.param_map := rfl

/-- Claim C1 (amended): when the configuration supplies exactly the 8
recognized filter names (in the order `render_filters` produces them),
`build_params` returns exactly the 8 recognized parameter keys, and a
recognized name supplied without a `value` key maps to the
unconstrained marker `None`; but a configuration with no definitions at
all yields an empty mapping, not 8 `None` entries — the output keys are
only those of the recognized names actually supplied. -/
theorem build_params_keys_of_full_config :
    (∀ (e1 e2 e3 e4 e5 e6 e7 e8 : FilterEntry) (ctx : Option String),
      (Filters.build_params
        [("month", e1), ("visitor", e2), ("weekend", e3), ("browser", e4),
         ("os", e5), ("region", e6), ("traffic", e7), ("page_type", e8)] ctx).map Prod.fst
      = ["p_months", "p_visitor_types", "p_weekend", "p_browsers",
         "p_os", "p_regions", "p_traffics", "p_page_types"])
    ∧ (∀ ctx : Option String, Filters.build_params [] ctx = [])
    ∧ (∀ (name pk : String) (ctx : Option String), Filters.param_map name = some pk →
        Filters.build_params [(name, ⟨Option.none, Option.none⟩)] ctx = [(pk, Option.none)]) := by
  refine ⟨?_, fun ctx => rfl, ?_⟩
  · intro e1 e2 e3 e4 e5 e6 e7 e8 ctx
    simp [Filters.build_params, Filters.build_params_step, Filters.param_map, dictInsert]
  · intro name pk ctx hpm
    simp [Filters.build_params, Filters.build_params_step, hpm, dictInsert,
      Filters.entryParam, truthy, PyVal.isNone]

/-- Claim C1, counterexample to the claim as stated: with no filter
definitions supplied, `build_params` of `src/filters.py` returns the
empty mapping — `p_months` (and every other recognized key) is absent,
not present with value `None`. -/
theorem build_params_empty_config_missing_keys :
    Filters.build_params [] (some "browser") = []
    ∧ List.lookup "p_months" (Filters.build_params [] (some "browser")) = Option.none :=
  ⟨rfl, rfl⟩

/-- Claim C1, witness: the amended theorem applied at the name `month`
supplied with no value. -/
theorem build_params_keys_witness :
    Filters.build_params [("month", ⟨Option.none, Option.none⟩)] (some "kpi")
      = [("p_months", Option.none)] :=
  build_params_keys_of_full_config.2.2 "month" "p_months" (some "kpi") rfl

/-- Claim C2: for every context and every scope setting, a non-weekend
filter whose value is the empty selection list is inactive and its
parameter is `None`; the weekend filter is inactive when its value is
the unconstrained `None` (for every scope and context), while the
weekday-only value `False` with scope `All` stays active and is passed
through as `False`, not `None`, for every context. -/
theorem build_params_empty_value_suppression :
    (∀ (name pk : String) (sc : Option String) (ctx : Option String),
        Filters.param_map name = some pk → name ≠ "weekend" →
        Filters.build_params [(name, ⟨some (PyVal.list []), sc⟩)] ctx = [(pk, Option.none)])
    ∧ (∀ (sc : Option String) (ctx : Option String),
        Filters.build_params [("weekend", ⟨some PyVal.none, sc⟩)] ctx
          = [("p_weekend", Option.none)])
    ∧ (∀ ctx : Option String,
        Filters.build_params [("weekend", ⟨some (PyVal.bool false), some "All"⟩)] ctx
          = [("p_weekend", some (PyVal.bool false))]) := by
  refine ⟨?_, fun sc ctx => rfl, fun ctx => rfl⟩
  intro name pk sc ctx hpm hw
  simp [Filters.build_params, Filters.build_params_step, hpm, dictInsert,
    Filters.entryParam, truthy, PyVal.isNone, hw]

/-- Claim C2, witness: the theorem applied at an empty month selection
with scope `All` and context `kpi`. -/
theorem build_params_empty_value_suppression_witness :
    Filters.build_params [("month", ⟨some (PyVal.list []), some "All"⟩)] (some "kpi")
      = [("p_months", Option.none)] :=
  build_params_empty_value_suppression.1 "month" "p_months" (some "All") (some "kpi")
    rfl (by decide)

/-- Claim C7 (amended): a filter definition with an unrecognized name is
not rejected at construction time — no construction-time validation
exists. The `filters.py` revision silently skips it (its parameter is
simply absent from the output), and the `app.py` revision fails later,
during parameter building, with a `KeyError` on `param_map[name]`. -/
theorem build_params_unrecognized_name_behavior
    (name : String) (e : FilterEntry) (ctx : Option String)
    (h : Filters.param_map name = Option.none) :
    Filters.build_params [(name, e)] ctx = []
    ∧ App.build_params [(name, e)] ctx = Option.none := by
  have hA : App.param_map name = Option.none := by rw [param_map_eq]; exact h
  constructor
  · simp [Filters.build_params, Filters.build_params_step, h]
  · simp [App.build_params, App.build_params_step, hA]

/-- Claim C7, counterexample to the claim as stated: the unrecognized
name `purchase` with a non-empty value is silently ignored by the
`filters.py` revision (empty output mapping, no error), and makes the
`app.py` revision fail during parameter building — neither revision
raises a `ConfigurationError` at construction time. -/
theorem unrecognized_name_not_rejected :
    Filters.build_params
      [("purchase", ⟨some (PyVal.list [PyVal.int 1]), some "All"⟩)] (some "kpi") = []
    ∧ App.build_params
      [("purchase", ⟨some (PyVal.list [PyVal.int 1]), some "All"⟩)] (some "kpi")
      = Option.none :=
  ⟨rfl, rfl⟩

/-- Claim C7, witness: the amended theorem applied at the unrecognized
name `special_day`. -/
theorem build_params_unrecognized_name_witness :
    Filters.build_params
      [("special_day", ⟨some (PyVal.bool true), some "Graph"⟩)] (some "special_day") = []
    ∧ App.build_params
      [("special_day", ⟨some (PyVal.bool true), some "Graph"⟩)] (some "special_day")
      = Option.none :=
  build_params_unrecognized_name_behavior "special_day"
    ⟨some (PyVal.bool true), some "Graph"⟩ (some "special_day") rfl

/-- Claim C3: a filter with a non-empty value and scope `Graph` has its
value included exactly when the target context equals the filter's own
name, and is mapped to `None` for every other context (including
`kpi`); a `Graph`-scoped filter whose name matches no rendered context
is therefore inactive for every rendered context. -/
theorem build_params_graph_scope_exclusive
    (name pk : String) (v : PyVal) (ctx : Option String)
    (hpm : Filters.param_map name = some pk) (hv : truthy v = true) :
    Filters.build_params [(name, ⟨some v, some "Graph"⟩)] ctx
      = [(pk, if ctx == some name then some v else Option.none)] := by
  simp only [Filters.build_params, List.foldl, Filters.build_params_step, hpm, dictInsert,
    Filters.entryParam, Option.getD_some, hv, Bool.true_or, if_true, List.any_nil,
    Bool.false_eq_true, if_false, List.nil_append]
  by_cases h : (ctx == some name) = true <;> simp [h]

/-- Claim C3, witness: the theorem applied to a `Graph`-scoped browser
selection at the matching context `browser` and at the non-matching
context `kpi`. -/
theorem build_params_graph_scope_exclusive_witness :
    Filters.build_params
      [("browser", ⟨some (PyVal.list [PyVal.int 1]), some "Graph"⟩)] (some "browser")
      = [("p_browsers", some (PyVal.list [PyVal.int 1]))]
    ∧ Filters.build_params
      [("browser", ⟨some (PyVal.list [PyVal.int 1]), some "Graph"⟩)] (some "kpi")
      = [("p_browsers", Option.none)] :=
  ⟨build_params_graph_scope_exclusive "browser" "p_browsers"
      (PyVal.list [PyVal.int 1]) (some "browser") rfl rfl,
   build_params_graph_scope_exclusive "browser" "p_browsers"
      (PyVal.list [PyVal.int 1]) (some "kpi") rfl rfl⟩

/-- Claim C4: a filter whose value passes the activity gate (truthy, or
the weekend filter with a value other than `None`) and whose scope is
`KPIs` has its value included exactly when the target context is the
literal `kpi`, and is mapped to `None` for every other context. -/
theorem build_params_kpi_scope_exclusive
    (name pk : String) (v : PyVal) (ctx : Option String)
    (hpm : Filters.param_map name = some pk)
    (hv : (truthy v || (name == "weekend" && !v.isNone)) = true) :
    Filters.build_params [(name, ⟨some v, some "KPIs"⟩)] ctx
      = [(pk, if ctx == some "kpi" then some v else Option.none)] := by
  simp only [Filters.build_params, List.foldl, Filters.build_params_step, hpm, dictInsert,
    Filters.entryParam, Option.getD_some, hv, if_true, List.any_nil,
    Bool.false_eq_true, if_false, List.nil_append]
  by_cases h : (ctx == some "kpi") = true <;> simp [h]

/-- Claim C4, witness: the theorem applied to a `KPIs`-scoped weekend
selection (the constrained value `False`) at the context `kpi` and at
the graph context `month`. -/
theorem build_params_kpi_scope_exclusive_witness :
    Filters.build_params
      [("weekend", ⟨some (PyVal.bool false), some "KPIs"⟩)] (some "kpi")
      = [("p_weekend", some (PyVal.bool false))]
    ∧ Filters.build_params
      [("weekend", ⟨some (PyVal.bool false), some "KPIs"⟩)] (some "month")
      = [("p_weekend", Option.none)] :=
  ⟨build_params_kpi_scope_exclusive "weekend" "p_weekend"
      (PyVal.bool false) (some "kpi") rfl rfl,
   build_params_kpi_scope_exclusive "weekend" "p_weekend"
      (PyVal.bool false) (some "month") rfl rfl⟩

/-- Claim C5: a filter whose value passes the activity gate (truthy, or
the weekend filter with a value other than `None`) and whose scope is
`All` has its value included for every target context — `kpi` and every
graph context, including ones different from the filter's own name. -/
theorem build_params_all_scope_universal
    (name pk : String) (v : PyVal) (ctx : Option String)
    (hpm : Filters.param_map name = some pk)
    (hv : (truthy v || (name == "weekend" && !v.isNone)) = true) :
    Filters.build_params [(name, ⟨some v, some "All"⟩)] ctx = [(pk, some v)] := by
  simp [Filters.build_params, Filters.build_params_step, hpm, dictInsert,
    Filters.entryParam, hv]

/-- Claim C5, witness: the theorem applied to an `All`-scoped region
selection at the contexts `kpi` and `browser` (a graph id different
from the filter's name). -/
theorem build_params_all_scope_universal_witness :
    Filters.build_params
      [("region", ⟨some (PyVal.list [PyVal.str "APAC"]), some "All"⟩)] (some "kpi")
      = [("p_regions", some (PyVal.list [PyVal.str "APAC"]))]
    ∧ Filters.build_params
      [("region", ⟨some (PyVal.list [PyVal.str "APAC"]), some "All"⟩)] (some "browser")
      = [("p_regions", some (PyVal.list [PyVal.str "APAC"]))] :=
  ⟨build_params_all_scope_universal "region" "p_regions"
      (PyVal.list [PyVal.str "APAC"]) (some "kpi") rfl rfl,
   build_params_all_scope_universal "region" "p_regions"
      (PyVal.list [PyVal.str "APAC"]) (some "browser") rfl rfl⟩

/-- Claim C9: in the `filters.py` revision, a filter entry without a
`scope` key defaults to scope `All` — active for every context when its
value is non-empty — while a scope string other than `All`, `KPIs` or
`Graph` leaves the filter inactive and mapped to `None` for every
context. -/
theorem build_params_scope_default_and_unknown
    (name pk sc : String) (v : PyVal) (ctx : Option String)
    (hpm : Filters.param_map name = some pk)
    (h1 : sc ≠ "All") (h2 : sc ≠ "KPIs") (h3 : sc ≠ "Graph") :
    (truthy v = true →
      Filters.build_params [(name, ⟨some v, Option.none⟩)] ctx = [(pk, some v)])
    ∧ Filters.build_params [(name, ⟨some v, some sc⟩)] ctx = [(pk, Option.none)] := by
  constructor
  · intro hv
    simp [Filters.build_params, Filters.build_params_step, hpm, dictInsert,
      Filters.entryParam, hv]
  · by_cases hg : (truthy v || (name == "weekend" && !v.isNone)) = true <;>
      simp [Filters.build_params, Filters.build_params_step, hpm, dictInsert,
        Filters.entryParam, hg, h1, h2, h3]

/-- Claim C9, witness: the theorem applied to an OS selection with the
`scope` key absent, and with the unknown scope string `Sidebar`, at the
context `os`. -/
theorem build_params_scope_default_and_unknown_witness :
    Filters.build_params
      [("os", ⟨some (PyVal.list [PyVal.int 2]), Option.none⟩)] (some "os")
      = [("p_os", some (PyVal.list [PyVal.int 2]))]
    ∧ Filters.build_params
      [("os", ⟨some (PyVal.list [PyVal.int 2]), some "Sidebar"⟩)] (some "os")
      = [("p_os", Option.none)] :=
  ⟨(build_params_scope_default_and_unknown "os" "p_os" "Sidebar"
      (PyVal.list [PyVal.int 2]) (some "os") rfl
      (by decide) (by decide) (by decide)).1 rfl,
   (build_params_scope_default_and_unknown "os" "p_os" "Sidebar"
      (PyVal.list [PyVal.int 2]) (some "os") rfl
      (by decide) (by decide) (by decide)).2⟩

/-- Claim C10: for every filter other than the weekend filter, activity
is decided by Python truthiness of the value: any falsy value (empty
list, `False`, `0`, `None`, or the empty string) is treated as no
selection, so the filter is inactive and mapped to `None` for every
context regardless of its scope — in both revisions of
`build_params`. -/
theorem build_params_falsy_value_inactive
    (name pk : String) (esc : Option String) (v : PyVal) (ctx : Option String)
    (hpm : Filters.param_map name = some pk)
    (hw : name ≠ "weekend") (hv : truthy v = false) :
    Filters.build_params [(name, ⟨some v, esc⟩)] ctx = [(pk, Option.none)]
    ∧ App.build_params [(name, ⟨some v, esc⟩)] ctx = some [(pk, Option.none)] := by
  have hA : App.param_map name = some pk := by rw [param_map_eq]; exact hpm
  constructor
  · simp [Filters.build_params, Filters.build_params_step, hpm, dictInsert,
      Filters.entryParam, hv, hw]
  · simp [App.build_params, App.build_params_step, hA, dictInsert, hv, hw]

/-- Claim C10, witness: the theorem applied at each of the falsy values
the claim enumerates — empty list, `False`, `0`, `None` and the empty
string — for various non-weekend filters, scopes and contexts. -/
theorem build_params_falsy_value_inactive_witness :
    Filters.build_params
      [("month", ⟨some (PyVal.list []), some "All"⟩)] (some "month")
      = [("p_months", Option.none)]
    ∧ Filters.build_params
      [("visitor", ⟨some (PyVal.bool false), some "KPIs"⟩)] (some "kpi")
      = [("p_visitor_types", Option.none)]
    ∧ Filters.build_params
      [("os", ⟨some (PyVal.int 0), some "Graph"⟩)] (some "os")
      = [("p_os", Option.none)]
    ∧ Filters.build_params
      [("region", ⟨some PyVal.none, Option.none⟩)] (some "kpi")
      = [("p_regions", Option.none)]
    ∧ App.build_params
      [("traffic", ⟨some (PyVal.str ""), some "All"⟩)] (some "traffic")
      = some [("p_traffics", Option.none)] :=
  ⟨(build_params_falsy_value_inactive "month" "p_months" (some "All")
      (PyVal.list []) (some "month") rfl (by decide) rfl).1,
   (build_params_falsy_value_inactive "visitor" "p_visitor_types" (some "KPIs")
      (PyVal.bool false) (some "kpi") rfl (by decide) rfl).1,
   (build_params_falsy_value_inactive "os" "p_os" (some "Graph")
      (PyVal.int 0) (some "os") rfl (by decide) rfl).1,
   (build_params_falsy_value_inactive "region" "p_regions" Option.none
      PyVal.none (some "kpi") rfl (by decide) rfl).1,
   (build_params_falsy_value_inactive "traffic" "p_traffics" (some "All")
      (PyVal.str "") (some "traffic") rfl (by decide) rfl).2⟩

/-- Generalized fold equality behind claim C6: over any prefix of
params already accumulated, the raising `app.py` loop and the skipping
`filters.py` loop agree whenever every item has a recognized name and
carries both a `value` and a `scope` key. -/
theorem app_filters_foldlM_eq (tg : Option String) :
    ∀ (cfg : List (String × FilterEntry)) (acc : List (String × Option PyVal)),
      (∀ p ∈ cfg, (Filters.param_map p.1).isSome = true) →
      (∀ p ∈ cfg, p.2.value.isSome = true) →
      (∀ p ∈ cfg, p.2.scope.isSome = true) →
      List.foldlM (App.build_params_step tg) acc cfg
        = some (List.foldl (Filters.build_params_step tg) acc cfg) := by
  intro cfg
  induction cfg with
  | nil => intro acc _ _ _; rfl
  | cons p rest ih =>
    intro acc h1 h2 h3
    obtain ⟨pk, hpk⟩ := Option.isSome_iff_exists.mp (h1 p (List.mem_cons_self p rest))
    obtain ⟨v, hv⟩ := Option.isSome_iff_exists.mp (h2 p (List.mem_cons_self p rest))
    obtain ⟨sc, hsc⟩ := Option.isSome_iff_exists.mp (h3 p (List.mem_cons_self p rest))
    have hApk : App.param_map p.1 = some pk := by rw [param_map_eq]; exact hpk
    have hstep : App.build_params_step tg acc p
        = some (Filters.build_params_step tg acc p) := by
      by_cases ht : truthy v = true
      · simp [App.build_params_step, Filters.build_params_step, hApk, hpk, hv, hsc,
          Filters.entryParam, ht]
      · have ht' : truthy v = false := by simpa using ht
        by_cases hwk : p.1 = "weekend"
        · by_cases hn : v.isNone = true
          · simp [App.build_params_step, Filters.build_params_step, hv, hsc,
              Filters.entryParam, ht', hwk, hn, App.param_map, Filters.param_map]
          · have hn' : v.isNone = false := by simpa using hn
            simp [App.build_params_step, Filters.build_params_step, hv, hsc,
              Filters.entryParam, ht', hwk, hn', App.param_map, Filters.param_map]
        · simp [App.build_params_step, Filters.build_params_step, hApk, hpk, hv, hsc,
            Filters.entryParam, ht', hwk]
    rw [List.foldlM_cons, hstep]
    simp only [Option.bind_eq_bind, Option.some_bind]
    exact ih _ (fun q hq => h1 q (List.mem_cons_of_mem p hq))
      (fun q hq => h2 q (List.mem_cons_of_mem p hq))
      (fun q hq => h3 q (List.mem_cons_of_mem p hq))

/-- Claim C6: on any filter configuration whose names are all recognized
and whose entries all carry both a `value` and a `scope` key (as the
configuration built by the sidebar always does, for all 8 names), the
`build_params` of `src/app.py` and the `build_params` of
`src/filters.py` return identical parameter mappings for every target
context. -/
theorem build_params_app_filters_agree
    (cfg : List (String × FilterEntry)) (ctx : Option String)
    (h1 : ∀ p ∈ cfg, (Filters.param_map p.1).isSome = true)
    (h2 : ∀ p ∈ cfg, p.2.value.isSome = true)
    (h3 : ∀ p ∈ cfg, p.2.scope.isSome = true) :
    App.build_params cfg ctx = some (Filters.build_params cfg ctx) :=
  app_filters_foldlM_eq ctx cfg [] h1 h2 h3

/-- Claim C6, witness: the theorem applied to a full 8-name
configuration at the context `kpi`. -/
theorem build_params_app_filters_agree_witness :
    App.build_params
      [("month", ⟨some (PyVal.list [PyVal.str "Feb"]), some "All"⟩),
       ("visitor", ⟨some (PyVal.list []), some "All"⟩),
       ("weekend", ⟨some (PyVal.bool false), some "KPIs"⟩),
       ("browser", ⟨some (PyVal.list [PyVal.int 1]), some "Graph"⟩),
       ("os", ⟨some (PyVal.list []), some "All"⟩),
       ("region", ⟨some (PyVal.list [PyVal.int 3]), some "KPIs"⟩),
       ("traffic", ⟨some (PyVal.list []), some "Graph"⟩),
       ("page_type", ⟨some (PyVal.list [PyVal.str "Product Related"]), some "All"⟩)]
      (some "kpi")
    = some (Filters.build_params
      [("month", ⟨some (PyVal.list [PyVal.str "Feb"]), some "All"⟩),
       ("visitor", ⟨some (PyVal.list []), some "All"⟩),
       ("weekend", ⟨some (PyVal.bool false), some "KPIs"⟩),
       ("browser", ⟨some (PyVal.list [PyVal.int 1]), some "Graph"⟩),
       ("os", ⟨some (PyVal.list []), some "All"⟩),
       ("region", ⟨some (PyVal.list [PyVal.int 3]), some "KPIs"⟩),
       ("traffic", ⟨some (PyVal.list []), some "Graph"⟩),
       ("page_type", ⟨some (PyVal.list [PyVal.str "Product Related"]), some "All"⟩)]
      (some "kpi")) :=
  build_params_app_filters_agree _ (some "kpi")
    (by decide) (by decide) (by decide)

/-- The state-threaded loop leaves the configuration component of the
state untouched and computes the same params dict as the plain fold. -/
theorem st_foldl_eq (tg : Option String) :
    ∀ (l : List (String × FilterEntry)) (acc : List (String × Option PyVal))
      (c : List (String × FilterEntry)),
      List.foldl (fun st p => (Filters.build_params_step tg st.1 p, st.2)) (acc, c) l
        = (List.foldl (Filters.build_params_step tg) acc l, c) := by
  intro l
  induction l with
  | nil => intro acc c; rfl
  | cons p rest ih =>
    intro acc c
    rw [List.foldl_cons, List.foldl_cons]
    exact ih _ _

/-- Claim C8: `build_params` of `src/filters.py` is deterministic and
side-effect-free — two calls with identical inputs return identical
outputs, and the call leaves the supplied filter configuration exactly
as it was (the state-threaded rendering of the loop returns the
configuration unchanged alongside the pure result). -/
theorem build_params_deterministic_pure
    (cfg cfg2 : List (String × FilterEntry)) (ctx ctx2 : Option String)
    (h1 : cfg = cfg2) (h2 : ctx = ctx2) :
    Filters.build_params cfg ctx = Filters.build_params cfg2 ctx2
    ∧ Filters.build_params_st cfg ctx = (Filters.build_params cfg ctx, cfg) := by
  subst h1; subst h2
  exact ⟨rfl, st_foldl_eq ctx cfg [] cfg⟩

/-- Claim C8, witness: the theorem applied to a concrete one-filter
configuration at the context `kpi`. -/
theorem build_params_deterministic_pure_witness :
    Filters.build_params
      [("month", ⟨some (PyVal.list [PyVal.str "Feb"]), some "All"⟩)] (some "kpi")
    = Filters.build_params
      [("month", ⟨some (PyVal.list [PyVal.str "Feb"]), some "All"⟩)] (some "kpi")
    ∧ Filters.build_params_st
      [("month", ⟨some (PyVal.list [PyVal.str "Feb"]), some "All"⟩)] (some "kpi")
    = (Filters.build_params
        [("month", ⟨some (PyVal.list [PyVal.str "Feb"]), some "All"⟩)] (some "kpi"),
       [("month", ⟨some (PyVal.list [PyVal.str "Feb"]), some "All"⟩)]) :=
  build_params_deterministic_pure
    [("month", ⟨some (PyVal.list [PyVal.str "Feb"]), some "All"⟩)]
    [("month", ⟨some (PyVal.list [PyVal.str "Feb"]), some "All"⟩)]
    (some "kpi") (some "kpi") rfl rfl
